import Mathlib

/-!
Shallow embedding of `src/views/landingPage/datePicker2.tsx` (component
`DatePicker2`).

A JavaScript `Date` object is modelled by its millisecond time value as an
`Int`; valid JS dates range over `[-8640000000000000, 8640000000000000]`,
`new Date(0)` is the Unix epoch and `new Date(8640000000000000)` the latest
representable date. Relational comparison of two `Date` objects in JS compares
their time values numerically.

The component-local React state (`error`, `cleared`) is modelled explicitly,
together with the pending `setTimeout` callbacks scheduled by `handleClear`
(each callback, when it fires, runs `setCleared(false)`); pending callbacks are
kept as their absolute fire times in scheduling order, which is also firing
order since event times are nondecreasing in a run. Callback invocations
(`props.onChange`, `props.onClear`), the `Logger.warning` call and a failure of
the `assert` on line 88 are recorded in an `Output` record per handled event.
-/

namespace DatePicker2

/-- Time value of the latest representable JS date, `new Date(8640000000000000)`
(line 90 of the source). -/
def maxDateValue : Int := 8640000000000000

/-- Time value of the earliest representable JS date. -/
def minDateValue : Int := -8640000000000000

/-- The value the wrapped picker passes to `handleChange`: a `Date` instance
(identified with its time value), JS `null`, or some other non-`Date` value.
Only the first satisfies `date instanceof Date`. -/
inductive DateInput where
  | date (t : Int)
  | jsNull
  | nonDate
deriving DecidableEq, Repr

/-- A value a callback can be invoked with: JS `null` or a `Date` instance.
This is the argument type `Date | null` of the `onChange` prop (line 22). -/
inductive DateVal where
  | null
  | date (t : Int)
deriving DecidableEq, Repr

/-- The props of `DatePicker2` that its logic reads (lines 20-27): the optional
`minDate` / `maxDate` bounds and whether the optional `onChange` callback was
supplied. `onClear` is required and therefore always present; `label` is pure
presentation. -/
structure Props where
  minDate : Option Int := none
  maxDate : Option Int := none
  hasOnChange : Bool := true
deriving DecidableEq, Repr

/-- Component-local state: the two `useState` flags `error` (line 73) and
`cleared` (line 75), plus the fire times of the pending
`setTimeout(() => setCleared(false), 2000)` callbacks, in scheduling order. -/
structure CState where
  error : Bool
  cleared : Bool
  pending : List Int
deriving DecidableEq, Repr

/-- The initial state: both `useState` flags start `false`, no timeout is
pending. -/
def initState : CState := { error := false, cleared := false, pending := [] }

/-- Observable effects of handling one event: the argument `props.onClear` was
invoked with (if invoked), the argument `props.onChange` was invoked with (if
invoked), whether `Logger.warning("onChange is undefined")` ran, and whether
the `assert` on line 88 failed (throwing and aborting the handler). -/
structure Output where
  onClearArg : Option DateVal := none
  onChangeArg : Option DateVal := none
  warned : Bool := false
  assertFailed : Bool := false
deriving DecidableEq, Repr

/-- Line 90 condition:
`date < (props.minDate ?? new Date(0)) || date > (props.maxDate ?? new Date(8640000000000000))`. -/
def outOfRange (minDate maxDate : Option Int) (t : Int) : Bool :=
  decide (t < minDate.getD 0) || decide (t > maxDate.getD maxDateValue)

/-- Lines 86-101. `assert(date instanceof Date, ...)` runs first: a non-`Date`
argument throws, leaving the state untouched and invoking no callback. For a
`Date`, the range check sets or resets `error`, then `onChange` is invoked with
the date when supplied, otherwise a warning is logged. -/
def handleChange (p : Props) (s : CState) (input : DateInput) : CState × Output :=
  match input with
  | .date t =>
      let s' := if outOfRange p.minDate p.maxDate t then
                  { s with error := true }
                else
                  { s with error := false }
      if p.hasOnChange then
        (s', { onChangeArg := some (.date t) })
      else
        (s', { warned := true })
  | _ => (s, { assertFailed := true })

/-- Lines 78-84: `event.preventDefault()` (no state effect), `setCleared(true)`,
`props.onClear(null)`, then `setTimeout(() => setCleared(false), 2000)`
scheduling a hide at `now + 2000`. -/
def handleClear (s : CState) (now : Int) : CState × Output :=
  ({ s with cleared := true, pending := s.pending ++ [now + 2000] },
   { onClearArg := some .null })

/-- Firing of the earliest pending `setTimeout` callback (the body on line 83):
it runs `setCleared(false)` and is consumed; with nothing pending this is a
no-op. -/
def fireTimer (s : CState) : CState :=
  match s.pending with
  | [] => s
  | _ :: rest => { s with cleared := false, pending := rest }

/-- Lines 159-165: the `OutsideClickHandler` with
`onClick={() => setCleared(false)}` is rendered only while `cleared` is true,
so an outside interaction hides the notification exactly when it is visible. -/
def outsideDismiss (s : CState) : CState :=
  if s.cleared then { s with cleared := false } else s

/-- Line 148 of the render output:
`helperText: error ? "Date is required" : ""`. -/
def helperText (error : Bool) : String :=
  if error then "Date is required" else ""

/-- The discrete events the component reacts to: a change event from the
wrapped picker, a clear action (tagged with the current time in ms), the firing
of the earliest pending timeout, and an outside interaction. -/
inductive Event where
  | change (input : DateInput)
  | clear (now : Int)
  | timerFire
  | outsideClick
deriving DecidableEq, Repr

/-- One step of the component: dispatch an event to its handler. -/
def step (p : Props) (s : CState) : Event → CState × Output
  | .change input => handleChange p s input
  | .clear now => handleClear s now
  | .timerFire => (fireTimer s, {})
  | .outsideClick => (outsideDismiss s, {})

/-- Run a sequence of events from a state, keeping only the state. -/
def run (p : Props) (s : CState) (es : List Event) : CState :=
  es.foldl (fun s e => (step p s e).1) s

/-- Events of the clear-notification path: a clear action or the firing of one
of its scheduled timeouts. -/
def isClearPath : Event → Bool
  | .clear _ => true
  | .timerFire => true
  | _ => false

/-- The state part of a change event with a `Date` argument: exactly the error
flag is rewritten, to the result of the range check. -/
theorem handleChange_date_fst (p : Props) (s : CState) (t : Int) :
    (handleChange p s (.date t)).1
      = { s with error := outOfRange p.minDate p.maxDate t } := by
  unfold handleChange
  cases hc : p.hasOnChange <;> cases h : outOfRange p.minDate p.maxDate t <;>
    simp [hc, h]

/-- With both bounds supplied, the range check decides membership in the
inclusive range. -/
theorem outOfRange_some_eq (mn mx t : Int) :
    outOfRange (some mn) (some mx) t = decide (t < mn ∨ t > mx) := by
  unfold outOfRange
  by_cases h1 : t < mn <;> by_cases h2 : t > mx <;> simp [h1, h2]

/-- Firing a timeout while at least one is pending hides the notification. -/
theorem fireTimer_cleared (s : CState) (h : s.pending ≠ []) :
    (fireTimer s).cleared = false := by
  unfold fireTimer
  cases hp : s.pending with
  | nil => exact absurd hp h
  | cons a l => rfl

/-- C1: for every `Date` with time value `t` passed to the change handler with
both bounds supplied, the resulting error flag is true iff `t` lies outside the
inclusive range `[mn, mx]`, and the rendered helper text is "Date is required"
exactly when the flag is true and the empty string otherwise. -/
theorem change_error_iff_out_of_range (mn mx t : Int) (cb : Bool) (s : CState) :
    ((step { minDate := some mn, maxDate := some mx, hasOnChange := cb } s
        (.change (.date t))).1.error = true ↔ (t < mn ∨ t > mx)) ∧
    helperText (step { minDate := some mn, maxDate := some mx, hasOnChange := cb } s
        (.change (.date t))).1.error
      = (if t < mn ∨ t > mx then "Date is required" else "") := by
  have h : (step { minDate := some mn, maxDate := some mx, hasOnChange := cb } s
      (.change (.date t))).1.error = decide (t < mn ∨ t > mx) := by
    show (handleChange _ s (.date t)).1.error = _
    rw [handleChange_date_fst]
    exact outOfRange_some_eq mn mx t
  rw [h]
  constructor
  · simp
  · by_cases hr : t < mn ∨ t > mx <;> simp [helperText, hr]

/-- C3: the change handler evaluated with both bounds unset. The default upper
bound is the latest representable date, but the default lower bound is
`new Date(0)`, the Unix epoch, not the earliest representable date: the valid
date with time value -1 (one millisecond before the epoch) and the earliest
representable date both set the error flag, while the epoch itself and the
latest representable date do not. -/
theorem default_lower_bound_is_epoch :
    (step { minDate := none, maxDate := none, hasOnChange := true } initState
        (.change (.date (-1)))).1.error = true ∧
    (step { minDate := none, maxDate := none, hasOnChange := true } initState
        (.change (.date minDateValue))).1.error = true ∧
    (step { minDate := none, maxDate := none, hasOnChange := true } initState
        (.change (.date 0))).1.error = false ∧
    (step { minDate := none, maxDate := none, hasOnChange := true } initState
        (.change (.date maxDateValue))).1.error = false := by
  decide

/-- C4: the clear handler immediately sets `cleared` true, invokes `onClear`
with `null`, and appends a timeout at `now + 2000` to the pending list; firing
the earliest pending timeout afterwards sets `cleared` back to false. -/
theorem handleClear_effects (p : Props) (s : CState) (now : Int) :
    (step p s (.clear now)).1.cleared = true ∧
    (step p s (.clear now)).2.onClearArg = some DateVal.null ∧
    (step p s (.clear now)).1.pending = s.pending ++ [now + 2000] ∧
    (step p (step p s (.clear now)).1 .timerFire).1.cleared = false := by
  refine ⟨rfl, rfl, rfl, ?_⟩
  exact fireTimer_cleared _ (by show s.pending ++ [now + 2000] ≠ []; simp)

/-- C5: a non-`Date` value fails the assertion on line 88: the handler aborts
with the component state (in particular the error flag) unchanged and without
invoking `onChange`. -/
theorem nonDate_assert_aborts (p : Props) (s : CState) :
    (step p s (.change .nonDate)).1 = s ∧
    (step p s (.change .nonDate)).2.assertFailed = true ∧
    (step p s (.change .nonDate)).2.onChangeArg = none :=
  ⟨rfl, rfl, rfl⟩

/-- The trace used against C2: two clear actions, at times 0 and 1000, from
the initial state. -/
def twoClearTrace : CState := run {} initState [.clear 0, .clear 1000]

/-- C2 counterexample: after clears at times 0 and 1000 the pending timeouts
are at 2000 and 3000; firing the earlier one (at time 2000, only 1000ms after
the most recent clear) already sets the cleared flag false while the
last-scheduled timeout (3000) is still pending. So the notification does not
remain visible until 2000ms after the most recent clear, and the earlier
pending timeout does have an observable effect. -/
theorem overlapping_clear_timers_hide_early :
    twoClearTrace.cleared = true ∧
    twoClearTrace.pending = [2000, 3000] ∧
    (step {} twoClearTrace .timerFire).1.cleared = false ∧
    (step {} twoClearTrace .timerFire).1.pending = [3000] := by
  decide

/-- C2 amended: calling the clear handler while the notification is already
visible does not cancel or restart any existing timer; it appends one more
independent timeout at `now + 2000` and keeps the notification visible, and
the notification is hidden as soon as the earliest pending timeout fires —
which can be an earlier timeout of a previous clear; later firings merely set
the already-false flag to false again. -/
theorem clear_adds_independent_timeout (p : Props) (s : CState) (now : Int)
    (h : s.cleared = true) :
    (step p s (.clear now)).1.cleared = true ∧
    (step p s (.clear now)).1.pending = s.pending ++ [now + 2000] ∧
    (step p (step p s (.clear now)).1 .timerFire).1.cleared = false := by
  refine ⟨rfl, rfl, ?_⟩
  exact fireTimer_cleared _ (by show s.pending ++ [now + 2000] ≠ []; simp)

/-- Witness for the amended C2 at a concrete visible state with one pending
timeout. -/
theorem clear_adds_independent_timeout_witness :
    ({ error := false, cleared := true, pending := [2000] } : CState).cleared = true ∧
    ((step {} ({ error := false, cleared := true, pending := [2000] } : CState)
        (.clear 1000)).1.cleared = true ∧
     (step {} ({ error := false, cleared := true, pending := [2000] } : CState)
        (.clear 1000)).1.pending
       = ({ error := false, cleared := true, pending := [2000] } : CState).pending
           ++ [1000 + 2000] ∧
     (step {} (step {} ({ error := false, cleared := true, pending := [2000] } : CState)
        (.clear 1000)).1 .timerFire).1.cleared = false) :=
  ⟨rfl, clear_adds_independent_timeout {} _ 1000 rfl⟩

/-- C6: clear actions and timeout firings never modify the error flag: after
any sequence of such events the error flag equals its initial value. -/
theorem clear_path_preserves_error (p : Props) (s : CState) (es : List Event)
    (h : ∀ e ∈ es, isClearPath e = true) :
    (run p s es).error = s.error := by
  revert h
  induction es generalizing s with
  | nil => intro h; rfl
  | cons e es ih =>
      intro h
      have he : isClearPath e = true := h e (List.mem_cons_self _ _)
      have hstep : (step p s e).1.error = s.error := by
        cases e with
        | change input => simp [isClearPath] at he
        | clear now => rfl
        | timerFire =>
            show (fireTimer s).error = s.error
            unfold fireTimer
            cases hp : s.pending with
            | nil => rfl
            | cons a l => rfl
        | outsideClick => simp [isClearPath] at he
      have hrun : run p s (e :: es) = run p (step p s e).1 es := rfl
      rw [hrun, ih (step p s e).1 (fun e' he' => h e' (List.mem_cons_of_mem _ he')),
        hstep]

/-- Witness for C6: a clear and a timeout firing leave an initially-true error
flag true. -/
theorem clear_path_preserves_error_witness :
    (∀ e ∈ ([Event.clear 0, Event.timerFire] : List Event), isClearPath e = true) ∧
    (run {} ({ error := true, cleared := false, pending := [] } : CState)
        [Event.clear 0, Event.timerFire]).error
      = ({ error := true, cleared := false, pending := [] } : CState).error :=
  ⟨by decide, clear_path_preserves_error {} _ _ (by decide)⟩

/-- C7: an outside interaction while the notification is visible sets the
cleared flag false immediately. -/
theorem outside_click_hides_immediately (p : Props) (s : CState)
    (h : s.cleared = true) :
    (step p s .outsideClick).1.cleared = false := by
  show (outsideDismiss s).cleared = false
  unfold outsideDismiss
  simp [h]

/-- Witness for C7 at a concrete visible state. -/
theorem outside_click_hides_immediately_witness :
    ({ error := false, cleared := true, pending := [5000] } : CState).cleared = true ∧
    (step ({} : Props) ({ error := false, cleared := true, pending := [5000] } : CState)
        .outsideClick).1.cleared = false :=
  ⟨rfl, outside_click_hides_immediately {} _ rfl⟩

/-- C8: an out-of-range date is recoverable: the error flag is set and the
helper text shows the inline message, yet the configured `onChange` callback
is still invoked with that very date. -/
theorem out_of_range_is_recoverable (mn mx : Option Int) (s : CState) (t : Int)
    (h : outOfRange mn mx t = true) :
    (step { minDate := mn, maxDate := mx, hasOnChange := true } s
        (.change (.date t))).1.error = true ∧
    helperText (step { minDate := mn, maxDate := mx, hasOnChange := true } s
        (.change (.date t))).1.error = "Date is required" ∧
    (step { minDate := mn, maxDate := mx, hasOnChange := true } s
        (.change (.date t))).2.onChangeArg = some (DateVal.date t) := by
  have h1 : (step { minDate := mn, maxDate := mx, hasOnChange := true } s
      (.change (.date t))).1.error = true := by
    show (handleChange _ s (.date t)).1.error = true
    rw [handleChange_date_fst]
    exact h
  refine ⟨h1, ?_, ?_⟩
  · rw [h1]; rfl
  · rfl

/-- Witness for C8: the date 11 with bounds [0, 10]. -/
theorem out_of_range_is_recoverable_witness :
    outOfRange (some 0) (some 10) 11 = true ∧
    ((step { minDate := some 0, maxDate := some 10, hasOnChange := true } initState
        (.change (.date 11))).1.error = true ∧
     helperText (step { minDate := some 0, maxDate := some 10, hasOnChange := true }
        initState (.change (.date 11))).1.error = "Date is required" ∧
     (step { minDate := some 0, maxDate := some 10, hasOnChange := true } initState
        (.change (.date 11))).2.onChangeArg = some (DateVal.date 11)) :=
  ⟨by decide, out_of_range_is_recoverable (some 0) (some 10) initState 11 (by decide)⟩

/-- C9: without a configured `onChange`, the change handler logs the warning,
does not fail the assertion, and still updates the error flag from the range
check; the clear handler still invokes `onClear` with `null`. -/
theorem missing_onChange_degrades (mn mx : Option Int) (s : CState) (t now : Int) :
    (step { minDate := mn, maxDate := mx, hasOnChange := false } s
        (.change (.date t))).2.warned = true ∧
    (step { minDate := mn, maxDate := mx, hasOnChange := false } s
        (.change (.date t))).2.assertFailed = false ∧
    (step { minDate := mn, maxDate := mx, hasOnChange := false } s
        (.change (.date t))).1.error = outOfRange mn mx t ∧
    (step { minDate := mn, maxDate := mx, hasOnChange := false } s
        (.clear now)).2.onClearArg = some DateVal.null := by
  refine ⟨rfl, rfl, ?_, rfl⟩
  show (handleChange _ s (.date t)).1.error = outOfRange mn mx t
  rw [handleChange_date_fst]

/-- C10: although the `onChange` prop accepts `Date | null`, the change handler
asserts its argument is a `Date` instance first: JS `null` fails the assertion
with the state unchanged and no callback invoked, and `onChange` is never
invoked with `null` from the change path for any input. -/
theorem null_change_fails_assert (p : Props) (s : CState) :
    ((step p s (.change .jsNull)).1 = s ∧
     (step p s (.change .jsNull)).2.assertFailed = true ∧
     (step p s (.change .jsNull)).2.onChangeArg = none) ∧
    ∀ input : DateInput, (step p s (.change input)).2.onChangeArg ≠ some DateVal.null := by
  refine ⟨⟨rfl, rfl, rfl⟩, ?_⟩
  intro input
  cases input with
  | date t =>
      show (handleChange p s (.date t)).2.onChangeArg ≠ some DateVal.null
      unfold handleChange
      cases hc : p.hasOnChange <;> simp [hc]
  | jsNull => simp [step, handleChange]
  | nonDate => simp [step, handleChange]

end DatePicker2
